import Mathlib

/-!
Verification of the `prepare jvm` command of chaosblade
(`cli/cmd/prepare_jvm.go`): preparation-record resolution
(`ManualPreparation`), the attach attempt with its single bounded retry
(`attachAgent`), the asynchronous re-invocation (`invokeAttaching`) and
best-effort result reporting (`reportAttachedResult`).

External collaborators (the record store `data` package, `jvm.Attach`,
`jvm.CheckPortFromSandboxToken`, `util.PostCurl`, the `handlePrepare…`
helper of the surrounding `cmd` package, port allocation) are modelled as
oracle functions in an `Env` structure; every outward effect the command
performs on them (store inserts/updates, attach calls, process spawns,
sleeps, printed responses, HTTP posts) is recorded in an event trace, so
that properties such as "no insert happens", "exactly one retry" or
"the returned response does not depend on reporting" are statements about
the trace and the returned value.
-/

namespace PrepareJvm

/-- Result codes of `spec.Response` (from the external `chaosblade-spec-go`
package): `OK` is the success code, the rest are the failure codes used by
`prepare_jvm.go`. -/
inductive RespCode where
  | OK
  | IllegalParameters
  | DatabaseError
  | ServerError
deriving DecidableEq, Repr

/-- Model of `spec.Response` (external `chaosblade-spec-go`): success flag,
code, error message and result payload. -/
structure Response where
  success : Bool
  code : RespCode
  err : String
  result : String
deriving DecidableEq, Repr

/-- The `spec.ReturnFail(code, err)`. -/
def ReturnFail (c : RespCode) (e : String) : Response :=
  { success := false, code := c, err := e, result := "" }

/-- The `spec.ReturnSuccess(result)`. -/
def ReturnSuccess (r : String) : Response :=
  { success := true, code := .OK, err := "", result := r }

/-- Model of `Response.Print()` (external): a rendering of the structured
response.  The exact format is owned by `chaosblade-spec-go`; the model
renders every field so that distinct responses print distinctly. -/
def Response.print (r : Response) : String :=
  "code=" ++ (toString (repr r.code)) ++ ",success=" ++ (if r.success then "true" else "false")
    ++ ",err=" ++ r.err ++ ",result=" ++ r.result

/-- The `data.PreparationRecord` (fields used by `prepare_jvm.go`): uid, type,
process name, port, pid and status. -/
structure PreparationRecord where
  uid : String
  programType : String
  process : String
  port : String
  pid : String
  status : String
deriving DecidableEq, Repr

/-- Go `strings.Contains`, on character lists: `isPrefixOfL` is the
prefix test. -/
def isPrefixOfL : List Char → List Char → Bool
  | [], _ => true
  | _ :: _, [] => false
  | a :: as, b :: bs => a == b && isPrefixOfL as bs

/-- Go `strings.Contains`, on character lists: scan for the pattern at
every position. -/
def containsSub (pat : List Char) : List Char → Bool
  | [] => isPrefixOfL pat []
  | c :: rest => isPrefixOfL pat (c :: rest) || containsSub pat rest

/-- Go `strings.Contains(s, pat)`. -/
def strContains (s pat : String) : Bool :=
  containsSub pat.data s.data

/-- Largest `int64`, the clamp bound of Go `strconv.ParseInt`. -/
def int64Max : Int := 9223372036854775807

/-- Smallest `int64`, the clamp bound of Go `strconv.ParseInt`. -/
def int64Min : Int := -9223372036854775808

/-- Decimal digit-string parse: `none` when empty or any character is not
an ASCII digit. -/
def parseDigits : List Char → Option Nat
  | [] => none
  | cs => cs.foldlM (fun acc c => if c.isDigit then some (acc * 10 + (c.toNat - 48)) else none) 0

/-- Go `strconv.Atoi(s)` as `(value, ok)`: optional leading sign then
decimal digits; on a syntax error the value is `0` and `ok` is `false`;
on range overflow the value is clamped to the `int64` bounds and `ok` is
`false` (the Go function returns a non-nil error in both cases). -/
def goAtoi (s : String) : Int × Bool :=
  let cs := s.data
  let signDigits : Bool × List Char :=
    match cs with
    | '+' :: rest => (false, rest)
    | '-' :: rest => (true, rest)
    | _ => (false, cs)
  match parseDigits signDigits.2 with
  | none => (0, false)
  | some n =>
    let v : Int := if signDigits.1 then -(n : Int) else (n : Int)
    if v < int64Min then (int64Min, false)
    else if v > int64Max then (int64Max, false)
    else (v, true)

/-- Go `strconv.Itoa` on the model's `Int` ports. -/
def goItoa (i : Int) : String := toString i

/-- The flag fields of `PrepareJvmCommand` that `prepareJvm` reads and
mutates (`javaHome`, `processName`, `port`, `processId`, `async`, `uid`,
`nohup`, `endpoint`). -/
structure PrepareJvmCommand where
  javaHome : String
  processName : String
  port : Int
  processId : String
  async : Bool
  uid : String
  nohup : Bool
  endpoint : String
deriving DecidableEq, Repr

/-- One outward effect of a run: a store insert, a store port/pid update,
an attach call, a detached spawn, the fixed grace sleep, a printed
response, or an HTTP result post. -/
inductive Event where
  | insert (typ process port pid : String)
  | updatePort (uid port : String)
  | updatePid (uid pid : String)
  | attachCall (port javaHome pid : String)
  | spawn (args : String)
  | sleepSecond
  | println (s : String)
  | postReport (endpoint body : String)
deriving DecidableEq, Repr

/-- Oracles for the external collaborators of `prepare_jvm.go`.  Reads
return values; effectful operations also appear in the event trace of the
run that invokes them. -/
structure Env where
  /-- The `jvm.CheckFlagValues(processName, processId)` → `(pid, response)`. -/
  checkFlagValues : String → String → String × Response
  /-- The `GetDS().QueryRunningPreByTypeAndProcess(typ, processName, processId)`:
  `.ok none` models a nil record with nil error. -/
  queryRunning : String → String → String → Except String (Option PreparationRecord)
  /-- The `insertPrepareRecord(typ, processName, port, processId)`. -/
  insertPrepareRecord : String → String → String → String → Except String PreparationRecord
  /-- The `getAndCacheSandboxPort()` (backed by `util.GetUnusedPort`). -/
  getAndCacheSandboxPort : Except String String
  /-- The `jvm.Attach(port, javaHome, pid)` → `(response, username)`. -/
  attach : String → String → String → Response × String
  /-- The `jvm.CheckPortFromSandboxToken(username)` → port or error. -/
  checkPortFromSandboxToken : String → Except String String
  /-- The `updatePreparationPort(uid, port)`: `some e` is a non-nil error. -/
  updatePreparationPort : String → String → Option String
  /-- The `handlePrepareResponseWithoutExit(uid, cmd, response)`: the returned
  `preErr` (`none` is a nil error; a non-nil error is a `*spec.Response`). -/
  handlePrepareResponse : String → Response → Option Response
  /-- The `GetDS().QueryPreparationByUid(uid)`. -/
  queryPreparationByUid : String → Except String PreparationRecord
  /-- The `json.Marshal` of the body map built by `createPostBody`. -/
  jsonMarshal : PreparationRecord → Except String String
  /-- The `util.PostCurl(endpoint, body, "application/json")` →
  `(result, err, code)`. -/
  postCurl : String → String → String × Option String × Int

/-- The `PrepareJvmType` (defined in the surrounding `cmd` package of this
repository, outside the given slice).  Modelled from the spec: the tag
identifying the preparation kind; no claim depends on its value. -/
def PrepareJvmType : String := "jvm"

/-- The `invokeAttaching`, lines 206–224: the re-invocation command line built
for the detached child (`blade` is then run with these arguments). -/
def invokeAttachingArgs (pc : PrepareJvmCommand) (port uid : String) : String :=
  let args := "prepare jvm --uid " ++ uid ++ " --nohup"
  let args := if port != "" then args ++ " --port " ++ port else args
  let args := if pc.processName != "" then args ++ " -p " ++ pc.processName else args
  let args := if pc.javaHome != "" then args ++ " -j " ++ pc.javaHome else args
  let args := if pc.processId != "" then args ++ " --pid " ++ pc.processId else args
  let args := if pc.async then args ++ " --async" else args
  let args := if pc.endpoint != "" then args ++ " --endpoint " ++ pc.endpoint else args
  args

/-- Outcome of `ManualPreparation`: a non-nil error (`fail`), the async
short-circuit `(nil, nil)` (`asyncDone`), or a record to continue with. -/
inductive MPResult where
  | fail (r : Response)
  | asyncDone
  | cont (rec : PreparationRecord)
deriving DecidableEq, Repr

/-- Tail of `ManualPreparation` (lines 195–202): on async, spawn the
re-invocation, sleep the one-second grace interval, print
`ReturnSuccess(record.Uid)` and short-circuit; otherwise hand the record
back for synchronous attachment. -/
def mpFinish (pc : PrepareJvmCommand) (rec : PreparationRecord) (ev : List Event) :
    MPResult × List Event :=
  if pc.async then
    (.asyncDone, ev ++ [.spawn (invokeAttachingArgs pc rec.port rec.uid), .sleepSecond,
      .println (ReturnSuccess rec.uid).print])
  else
    (.cont rec, ev)

/-- Creation branch of `ManualPreparation` (lines 169–186): resolve the
port (caller flag if non-zero, otherwise the port allocator) and insert a
fresh record. -/
def mpCreate (env : Env) (pc : PrepareJvmCommand) : MPResult × List Event :=
  let portRes : Except Response String :=
    if pc.port != 0 then .ok (goItoa pc.port)
    else
      match env.getAndCacheSandboxPort with
      | .ok p => .ok p
      | .error e => .error (ReturnFail .ServerError ("get sandbox port err, " ++ e))
  match portRes with
  | .error r => (.fail r, [])
  | .ok port =>
    match env.insertPrepareRecord PrepareJvmType pc.processName port pc.processId with
    | .error e =>
      (.fail (ReturnFail .DatabaseError ("insert prepare record err, " ++ e)),
        [.insert PrepareJvmType pc.processName port pc.processId])
    | .ok rec => mpFinish pc rec [.insert PrepareJvmType pc.processName port pc.processId]

/-- The `ManualPreparation` (lines 168–203): create a record when none is
`Running`; otherwise reuse the `Running` record, rejecting a conflicting
non-zero `--port`; then the sync/async tail `mpFinish`. -/
def ManualPreparation (env : Env) (pc : PrepareJvmCommand)
    (record : Option PreparationRecord) : MPResult × List Event :=
  match record with
  | none => mpCreate env pc
  | some rec =>
    if rec.status != "Running" then mpCreate env pc
    else
      if pc.port != 0 && goItoa pc.port != rec.port then
        (.fail (ReturnFail .IllegalParameters
          ("the process has been executed prepare command, if you wan't re-prepare, " ++
            "please append or modify the --port " ++ rec.port ++
            " argument in prepare command for retry")), [])
      else
        mpFinish pc rec []

/-- The `attachAgent` (lines 148–166): one attach attempt; on a failed attempt
with a non-empty username whose error mentions "connection refused", look
up an alternate port in `~/.sandbox.token` and retry exactly once; when
the retry succeeds, persist the corrected port (a persistence error is
logged only). -/
def attachAgent (env : Env) (pc : PrepareJvmCommand) : Response × List Event :=
  let p0 := goItoa pc.port
  let ar := env.attach p0 pc.javaHome pc.processId
  let response := ar.1
  let username := ar.2
  let ev0 : List Event := [.attachCall p0 pc.javaHome pc.processId]
  if !response.success && username != "" && strContains response.err "connection refused" then
    match env.checkPortFromSandboxToken username with
    | .error _ => (response, ev0)
    | .ok port =>
      let ar2 := env.attach port pc.javaHome pc.processId
      let response2 := ar2.1
      let ev1 := ev0 ++ [.attachCall port pc.javaHome pc.processId]
      if response2.success then
        let _upd := env.updatePreparationPort pc.uid port
        -- a non-nil `_upd` is only logged (logrus.Warningf), never returned
        (response2, ev1 ++ [.updatePort pc.uid port])
      else
        (response2, ev1)
  else
    (response, ev0)

/-- The `createPostBody` (lines 250–267): query the record by uid and marshal
the `data`/`type` envelope. -/
def createPostBody (env : Env) (uid : String) : Except String String :=
  match env.queryPreparationByUid uid with
  | .error e => .error e
  | .ok rec =>
    match env.jsonMarshal rec with
    | .error e => .error e
    | .ok body => .ok body

/-- The `reportAttachedResult` (lines 130–145): build the body and POST it to
the endpoint; a body failure, transport error or non-200 code is logged
only, so the only outward effect is the POST itself (when a body exists).
Returns the events of the call. -/
def reportAttachedResult (env : Env) (pc : PrepareJvmCommand) : List Event :=
  match createPostBody env pc.uid with
  | .error _ => []
  | .ok body =>
    let _pr := env.postCurl pc.endpoint body
    -- _pr.2.1 (transport error) and _pr.2.2 (non-200 code) are only logged
    [.postReport pc.endpoint body]

/-- Result of a `prepareJvm` run: the returned Go error (`none` = nil),
the final flag state of the command (uid/port/pid adoption), and the event
trace. -/
structure PrepareOutcome where
  ret : Option Response
  finalCmd : PrepareJvmCommand
  events : List Event
deriving DecidableEq, Repr

/-- Lines 107–112 of `prepareJvm`: adopt the record's uid (when the
caller supplied none) and the record's parsed port (when the caller
supplied port `0`). -/
def adoptRecord (pc1 : PrepareJvmCommand) (record : Option PreparationRecord) :
    PrepareJvmCommand :=
  let pc2 :=
    match record with
    | some r => if pc1.uid == "" then { pc1 with uid := r.uid } else pc1
    | none => pc1
  match record with
  | some r => if pc2.port == 0 then { pc2 with port := (goAtoi r.port).1 } else pc2
  | none => pc2

/-- Lines 113–127 of `prepareJvm`: run `attachAgent` on the adopted
state, correct a diverged pid after the attempt, hand the response to
`handlePrepareResponseWithoutExit`, report when async with an endpoint,
and print the response when `preErr` is nil. -/
def attachPhase (env : Env) (pc1 : PrepareJvmCommand) (record : Option PreparationRecord)
    (ev : List Event) : PrepareOutcome :=
  let pc3 := adoptRecord pc1 record
  let att := attachAgent env pc3
  let response := att.1
  let ev2 := ev ++ att.2
  let ev3 :=
    match record with
    | some r => if r.pid != pc3.processId then ev2 ++ [.updatePid pc3.uid pc3.processId] else ev2
    | none => ev2
  let preErr := env.handlePrepareResponse pc3.uid response
  let ev4 := if pc3.async && pc3.endpoint != "" then ev3 ++ reportAttachedResult env pc3 else ev3
  match preErr with
  | none => { ret := none, finalCmd := pc3, events := ev4 ++ [.println response.print] }
  | some e => { ret := some e, finalCmd := pc3, events := ev4 }

/-- The `prepareJvm` (lines 83–128): validate flags, resolve the pid, query
the running record, run `ManualPreparation` unless `--nohup`, then the
attach phase. -/
def prepareJvm (env : Env) (pc0 : PrepareJvmCommand) : PrepareOutcome :=
  if pc0.processName == "" && pc0.processId == "" then
    { ret := some (ReturnFail .IllegalParameters "less --process or --pid flags"),
      finalCmd := pc0, events := [] }
  else
    let cf := env.checkFlagValues pc0.processName pc0.processId
    if !cf.2.success then
      { ret := some cf.2, finalCmd := pc0, events := [] }
    else
      let pc := { pc0 with processId := cf.1 }
      match env.queryRunning PrepareJvmType pc.processName pc.processId with
      | .error e =>
        { ret := some (ReturnFail .DatabaseError ("query attach java process record err, " ++ e)),
          finalCmd := pc, events := [] }
      | .ok record0 =>
        if !pc.nohup then
          let mp := ManualPreparation env pc record0
          match mp.1 with
          | .fail r => { ret := some r, finalCmd := pc, events := mp.2 }
          | .asyncDone => { ret := none, finalCmd := pc, events := mp.2 }
          | .cont rec => attachPhase env pc (some rec) mp.2
        else
          attachPhase env pc record0 []

/-- The printed responses of a trace, in order. -/
def printlnsOf (evs : List Event) : List String :=
  evs.filterMap fun e =>
    match e with
    | .println s => some s
    | _ => none

/-- Whether an event is a store insert. -/
def Event.isInsert : Event → Bool
  | .insert _ _ _ _ => true
  | _ => false

/-- Whether an event is an attach call. -/
def Event.isAttach : Event → Bool
  | .attachCall _ _ _ => true
  | _ => false

/-- Whether an event is a detached spawn. -/
def Event.isSpawn : Event → Bool
  | .spawn _ => true
  | _ => false

/-- Whether an event is a pid update. -/
def Event.isUpdatePid : Event → Bool
  | .updatePid _ _ => true
  | _ => false

/-- Whether an event is a port update. -/
def Event.isUpdatePort : Event → Bool
  | .updatePort _ _ => true
  | _ => false

/-- A concrete `Running` record used by the concrete test environments. -/
def recR : PreparationRecord :=
  { uid := "uid1", programType := "jvm", process := "tomcat", port := "8703",
    pid := "100", status := "Running" }

/-- A refused-connection attach failure, as produced by `jvm.Attach` when
the sandbox server is not listening on the expected port. -/
def refusedResp : Response :=
  { success := false, code := .ServerError,
    err := "dial tcp 127.0.0.1:8703: connect: connection refused", result := "" }

/-- A concrete benign environment: flag check resolves pid `100`, the
query finds `recR`, inserts succeed, attach succeeds immediately, the
response handler returns nil. -/
def baseEnv : Env :=
  { checkFlagValues := fun _ _ => ("100", ReturnSuccess "100")
    queryRunning := fun _ _ _ => .ok (some recR)
    insertPrepareRecord := fun t p port pid =>
      .ok { uid := "uid2", programType := t, process := p, port := port, pid := pid,
            status := "Running" }
    getAndCacheSandboxPort := .ok "9000"
    attach := fun _ _ _ => (ReturnSuccess "ok", "")
    checkPortFromSandboxToken := fun _ => .error "no token file"
    updatePreparationPort := fun _ _ => none
    handlePrepareResponse := fun _ _ => none
    queryPreparationByUid := fun _ => .ok recR
    jsonMarshal := fun _ => .ok "body"
    postCurl := fun _ _ => ("", none, 200) }

/-- The concrete command flags of a first-style invocation:
`blade prepare jvm --process tomcat`. -/
def basePc : PrepareJvmCommand :=
  { javaHome := "", processName := "tomcat", port := 0, processId := "",
    async := false, uid := "", nohup := false, endpoint := "" }

/-- A concrete environment exercising the retry path: attach on any port
but `54321` is refused with recovered identity `admin`; the sandbox token
file of `admin` resolves port `54321`, on which attach succeeds. -/
def retryEnv : Env :=
  { baseEnv with
    attach := fun port _ _ =>
      if port == "54321" then (ReturnSuccess "ok", "admin") else (refusedResp, "admin")
    checkPortFromSandboxToken := fun u =>
      if u == "admin" then .ok "54321" else .error "no record" }

/-- A concrete environment whose attach failure recovers no identity, so
no retry is possible. -/
def noIdentityEnv : Env :=
  { baseEnv with attach := fun _ _ _ => (refusedResp, "") }

/-- Like `retryEnv`, but persisting the corrected port fails. -/
def retryFailUpdateEnv : Env :=
  { retryEnv with updatePreparationPort := fun _ _ => some "database is locked" }

/-- Like `baseEnv`, but the live process resolves to pid `200` while the
stored record `recR` still holds pid `100`. -/
def pidDriftEnv : Env :=
  { baseEnv with checkFlagValues := fun _ _ => ("200", ReturnSuccess "200") }

/-- Like `baseEnv`, but the reporting endpoint answers HTTP 500. -/
def reportFailEnv : Env :=
  { baseEnv with postCurl := fun _ _ => ("internal server error", none, 500) }

/-- Like `baseEnv`, but no record exists yet for the target, so a
preparation call takes the creation branch. -/
def freshEnv : Env :=
  { baseEnv with queryRunning := fun _ _ _ => .ok none }

/-- The flags of the re-invoked async child:
`prepare jvm --uid uid1 --nohup --port 8703 -p tomcat --async`. -/
def asyncChildPc : PrepareJvmCommand :=
  { basePc with async := true, nohup := true, uid := "uid1", port := 8703 }

/-- A `Running` record whose stored port string is not a decimal
integer. -/
def badPortRec : PreparationRecord :=
  { recR with port := "not-a-number" }

/-- Like `baseEnv`, but the query finds `badPortRec`. -/
def badPortEnv : Env :=
  { baseEnv with queryRunning := fun _ _ _ => .ok (some badPortRec) }

/-- An environment with the three reporting oracles (record-by-uid query,
body marshalling, HTTP post) replaced and everything else kept. -/
def withReportOracles (env : Env) (q : String → Except String PreparationRecord)
    (m : PreparationRecord → Except String String)
    (post : String → String → String × Option String × Int) : Env :=
  { env with
      queryPreparationByUid := q
      jsonMarshal := m
      postCurl := post }

/-- The command state after a reuse-path resolution: pid resolved, the
record's uid adopted, and the record's port string parsed into the port
flag. -/
def resolvedCmd (pc : PrepareJvmCommand) (pid : String) (r : PreparationRecord) :
    PrepareJvmCommand :=
  { pc with processId := pid, uid := r.uid, port := (goAtoi r.port).1 }

/-- The `attachAgent` never issues a store insert. -/
theorem attachAgent_no_insert (env : Env) (pc : PrepareJvmCommand) :
    (attachAgent env pc).2.filter Event.isInsert = [] := by
  unfold attachAgent
  dsimp only
  repeat' split
  all_goals rfl

/-- The `reportAttachedResult` never issues a store insert. -/
theorem reportAttachedResult_no_insert (env : Env) (pc : PrepareJvmCommand) :
    (reportAttachedResult env pc).filter Event.isInsert = [] := by
  unfold reportAttachedResult
  split
  · rfl
  · rfl

/-- The attach phase starting from a trace `ev` adds no store insert. -/
theorem attachPhase_filter_insert (env : Env) (pc : PrepareJvmCommand)
    (record : Option PreparationRecord) (ev : List Event) :
    (attachPhase env pc record ev).events.filter Event.isInsert =
      ev.filter Event.isInsert := by
  unfold attachPhase
  dsimp only
  repeat' split
  all_goals
    simp [List.filter_append, attachAgent_no_insert, reportAttachedResult_no_insert,
      Event.isInsert]

/-- The final flag state of the attach phase over a reused record, when
the caller supplied neither uid nor port: the record's uid and parsed
port are adopted. -/
theorem attachPhase_finalCmd (env : Env) (pc : PrepareJvmCommand) (r : PreparationRecord)
    (ev : List Event) (huid : pc.uid = "") (hport : pc.port = 0) :
    (attachPhase env pc (some r) ev).finalCmd =
      { pc with uid := r.uid, port := (goAtoi r.port).1 } := by
  unfold attachPhase adoptRecord
  dsimp only
  simp only [huid, hport]
  repeat' split
  all_goals simp_all

/-- A reuse-path run reduces to the attach phase on the record found by
the query. -/
theorem prepareJvm_reuse_eq (env : Env) (pc : PrepareJvmCommand) (r : PreparationRecord)
    (pid : String) (resp : Response)
    (hflags : (pc.processName == "" && pc.processId == "") = false)
    (hcf : env.checkFlagValues pc.processName pc.processId = (pid, resp))
    (hok : resp.success = true)
    (hq : env.queryRunning PrepareJvmType pc.processName pid = .ok (some r))
    (hst : r.status = "Running")
    (hport : pc.port = 0)
    (hnohup : pc.nohup = false)
    (hasync : pc.async = false) :
    prepareJvm env pc = attachPhase env { pc with processId := pid } (some r) [] := by
  unfold prepareJvm
  dsimp only
  simp [hflags, hcf, hok, hq, hnohup, ManualPreparation, hst, hport, hasync, mpFinish]

/-- C1: a preparation call that finds a `Running` record for the target
and carries no port override inserts no new record and adopts the existing
record's uid (and its stored port), so the same uid is returned and no
duplicate `Running` record is created. -/
theorem C1_idempotent_reuse (env : Env) (pc : PrepareJvmCommand) (r : PreparationRecord)
    (pid : String) (resp : Response)
    (hflags : (pc.processName == "" && pc.processId == "") = false)
    (hcf : env.checkFlagValues pc.processName pc.processId = (pid, resp))
    (hok : resp.success = true)
    (hq : env.queryRunning PrepareJvmType pc.processName pid = .ok (some r))
    (hst : r.status = "Running")
    (hport : pc.port = 0)
    (huid : pc.uid = "")
    (hnohup : pc.nohup = false)
    (hasync : pc.async = false) :
    (prepareJvm env pc).events.filter Event.isInsert = [] ∧
    (prepareJvm env pc).finalCmd.uid = r.uid ∧
    (prepareJvm env pc).finalCmd.port = (goAtoi r.port).1 := by
  rw [prepareJvm_reuse_eq env pc r pid resp hflags hcf hok hq hst hport hnohup hasync]
  refine ⟨attachPhase_filter_insert env _ (some r) [], ?_, ?_⟩ <;>
    rw [attachPhase_finalCmd env _ r [] (by simpa using huid) (by simpa using hport)]

/-- Witness for C1 at the concrete environment `baseEnv` (query finds the
`Running` record `recR` with uid `uid1`, port `8703`) and the flags of
`blade prepare jvm --process tomcat`. -/
theorem C1_idempotent_reuse_witness :
    (prepareJvm baseEnv basePc).events.filter Event.isInsert = [] ∧
    (prepareJvm baseEnv basePc).finalCmd.uid = recR.uid ∧
    (prepareJvm baseEnv basePc).finalCmd.port = (goAtoi recR.port).1 :=
  C1_idempotent_reuse baseEnv basePc recR "100" (ReturnSuccess "100")
    rfl rfl rfl rfl rfl rfl rfl rfl rfl

/-- C2: a preparation call that finds a `Running` record and supplies a
non-zero port different from the stored one fails with the
`IllegalParameters` conflict response, and its trace is empty: no insert,
no update and no attach happen. -/
theorem C2_conflicting_port (env : Env) (pc : PrepareJvmCommand) (r : PreparationRecord)
    (pid : String) (resp : Response)
    (hflags : (pc.processName == "" && pc.processId == "") = false)
    (hcf : env.checkFlagValues pc.processName pc.processId = (pid, resp))
    (hok : resp.success = true)
    (hq : env.queryRunning PrepareJvmType pc.processName pid = .ok (some r))
    (hst : r.status = "Running")
    (hp : pc.port ≠ 0)
    (hne : goItoa pc.port ≠ r.port)
    (hnohup : pc.nohup = false) :
    prepareJvm env pc =
      { ret := some (ReturnFail .IllegalParameters
          ("the process has been executed prepare command, if you wan't re-prepare, " ++
            "please append or modify the --port " ++ r.port ++
            " argument in prepare command for retry")),
        finalCmd := { pc with processId := pid }, events := [] } := by
  unfold prepareJvm
  dsimp only
  simp [hflags, hcf, hok, hq, hnohup, ManualPreparation, hst, hp, hne]

/-- Witness for C2: preparing `tomcat` with `--port 9999` while the
`Running` record stores port `8703` returns the conflict failure and an
empty trace. -/
theorem C2_conflicting_port_witness :
    prepareJvm baseEnv { basePc with port := 9999 } =
      { ret := some (ReturnFail .IllegalParameters
          ("the process has been executed prepare command, if you wan't re-prepare, " ++
            "please append or modify the --port " ++ recR.port ++
            " argument in prepare command for retry")),
        finalCmd := { { basePc with port := 9999 } with processId := "100" },
        events := [] } :=
  C2_conflicting_port baseEnv { basePc with port := 9999 } recR "100" (ReturnSuccess "100")
    rfl rfl rfl rfl rfl (by decide) (by decide) rfl

/-- Reduction of `attachAgent` on the full recovery path: first attempt
failed, non-empty username, refused-connection message, successful token
lookup.  The result is the retry's response, and the trace is the two
attach calls plus — exactly when the retry succeeded — the port update. -/
theorem attachAgent_retry_eq (env : Env) (pc : PrepareJvmCommand) (p1 : String)
    (hfail : (env.attach (goItoa pc.port) pc.javaHome pc.processId).1.success = false)
    (huser : (env.attach (goItoa pc.port) pc.javaHome pc.processId).2 ≠ "")
    (hrefused : strContains (env.attach (goItoa pc.port) pc.javaHome pc.processId).1.err
      "connection refused" = true)
    (hlookup : env.checkPortFromSandboxToken
      (env.attach (goItoa pc.port) pc.javaHome pc.processId).2 = .ok p1) :
    attachAgent env pc =
      ((env.attach p1 pc.javaHome pc.processId).1,
        if (env.attach p1 pc.javaHome pc.processId).1.success = true then
          [.attachCall (goItoa pc.port) pc.javaHome pc.processId,
           .attachCall p1 pc.javaHome pc.processId, .updatePort pc.uid p1]
        else
          [.attachCall (goItoa pc.port) pc.javaHome pc.processId,
           .attachCall p1 pc.javaHome pc.processId]) := by
  unfold attachAgent
  dsimp only
  have hg : (!(env.attach (goItoa pc.port) pc.javaHome pc.processId).1.success &&
      (env.attach (goItoa pc.port) pc.javaHome pc.processId).2 != "" &&
      strContains (env.attach (goItoa pc.port) pc.javaHome pc.processId).1.err
        "connection refused") = true := by
    simp only [hfail, hrefused, Bool.not_false, Bool.true_and, Bool.and_true, bne_iff_ne, ne_eq]
    exact huser
  rw [hg, if_pos rfl, hlookup]
  repeat' split
  all_goals simp_all

/-- C3: when the first attach fails with a non-empty recovered identity
and a refused-connection message, and the sandbox-token lookup resolves an
alternate port, `attachAgent` retries exactly once with that port (the
trace holds exactly two attach calls, never a third) and, when the retry
succeeds, issues exactly the port update to the alternate value. -/
theorem C3_retry_once (env : Env) (pc : PrepareJvmCommand) (p1 : String)
    (hfail : (env.attach (goItoa pc.port) pc.javaHome pc.processId).1.success = false)
    (huser : (env.attach (goItoa pc.port) pc.javaHome pc.processId).2 ≠ "")
    (hrefused : strContains (env.attach (goItoa pc.port) pc.javaHome pc.processId).1.err
      "connection refused" = true)
    (hlookup : env.checkPortFromSandboxToken
      (env.attach (goItoa pc.port) pc.javaHome pc.processId).2 = .ok p1) :
    (attachAgent env pc).1 = (env.attach p1 pc.javaHome pc.processId).1 ∧
    (attachAgent env pc).2.filter Event.isAttach =
      [.attachCall (goItoa pc.port) pc.javaHome pc.processId,
       .attachCall p1 pc.javaHome pc.processId] ∧
    ((env.attach p1 pc.javaHome pc.processId).1.success = true →
      (attachAgent env pc).2.filter Event.isUpdatePort = [.updatePort pc.uid p1]) := by
  rw [attachAgent_retry_eq env pc p1 hfail huser hrefused hlookup]
  refine ⟨rfl, ?_, ?_⟩
  · split <;> rfl
  · intro h
    rw [if_pos h]
    rfl

/-- Witness for C3: in `retryEnv`, attach on port `0` is refused with
identity `admin`, the token lookup yields `54321`, and the retry there
succeeds. -/
theorem C3_retry_once_witness :
    (attachAgent retryEnv basePc).1 = (retryEnv.attach "54321" basePc.javaHome basePc.processId).1 ∧
    (attachAgent retryEnv basePc).2.filter Event.isAttach =
      [.attachCall (goItoa basePc.port) basePc.javaHome basePc.processId,
       .attachCall "54321" basePc.javaHome basePc.processId] ∧
    ((retryEnv.attach "54321" basePc.javaHome basePc.processId).1.success = true →
      (attachAgent retryEnv basePc).2.filter Event.isUpdatePort = [.updatePort basePc.uid "54321"]) :=
  C3_retry_once retryEnv basePc "54321" rfl (by decide) rfl rfl

/-- C4: a failed attach attempt whose recovery precondition does not
fully hold — empty recovered identity, an error message without the
refused-connection signature, or a failing token lookup — performs no
retry (the trace is the single attach call) and returns the original
failure unchanged. -/
theorem C4_no_recovery (env : Env) (pc : PrepareJvmCommand)
    (hfail : (env.attach (goItoa pc.port) pc.javaHome pc.processId).1.success = false)
    (hno : (env.attach (goItoa pc.port) pc.javaHome pc.processId).2 = "" ∨
      strContains (env.attach (goItoa pc.port) pc.javaHome pc.processId).1.err
        "connection refused" = false ∨
      ∃ e, env.checkPortFromSandboxToken
        (env.attach (goItoa pc.port) pc.javaHome pc.processId).2 = .error e) :
    attachAgent env pc =
      ((env.attach (goItoa pc.port) pc.javaHome pc.processId).1,
        [.attachCall (goItoa pc.port) pc.javaHome pc.processId]) := by
  unfold attachAgent
  dsimp only
  rcases hno with h | h | ⟨e, h⟩
  · simp [h]
  · simp [h]
  · rw [h]
    split <;> rfl

/-- Witness for C4: in `noIdentityEnv` the attach failure carries an empty
recovered identity, so the single refused attempt is surfaced unchanged. -/
theorem C4_no_recovery_witness :
    attachAgent noIdentityEnv basePc =
      ((noIdentityEnv.attach (goItoa basePc.port) basePc.javaHome basePc.processId).1,
        [.attachCall (goItoa basePc.port) basePc.javaHome basePc.processId]) :=
  C4_no_recovery noIdentityEnv basePc rfl (.inl rfl)

/-- C5: when the retry attach succeeds but persisting the corrected port
fails (`updatePreparationPort` returns an error), the successful retry
response is still what `attachAgent` returns — the bookkeeping failure is
logged only. -/
theorem C5_update_failure_ignored (env : Env) (pc : PrepareJvmCommand) (p1 emsg : String)
    (hfail : (env.attach (goItoa pc.port) pc.javaHome pc.processId).1.success = false)
    (huser : (env.attach (goItoa pc.port) pc.javaHome pc.processId).2 ≠ "")
    (hrefused : strContains (env.attach (goItoa pc.port) pc.javaHome pc.processId).1.err
      "connection refused" = true)
    (hlookup : env.checkPortFromSandboxToken
      (env.attach (goItoa pc.port) pc.javaHome pc.processId).2 = .ok p1)
    (hretry : (env.attach p1 pc.javaHome pc.processId).1.success = true)
    (hupd : env.updatePreparationPort pc.uid p1 = some emsg) :
    (attachAgent env pc).1 = (env.attach p1 pc.javaHome pc.processId).1 ∧
    (attachAgent env pc).1.success = true := by
  rw [attachAgent_retry_eq env pc p1 hfail huser hrefused hlookup]
  exact ⟨rfl, hretry⟩

/-- Witness for C5: `retryFailUpdateEnv` refuses the first attach,
resolves `54321` from the token file, succeeds there, and fails the port
update with a database error; the returned response is still the success. -/
theorem C5_update_failure_ignored_witness :
    (attachAgent retryFailUpdateEnv basePc).1 =
      (retryFailUpdateEnv.attach "54321" basePc.javaHome basePc.processId).1 ∧
    (attachAgent retryFailUpdateEnv basePc).1.success = true :=
  C5_update_failure_ignored retryFailUpdateEnv basePc "54321" "database is locked"
    rfl (by decide) rfl rfl rfl rfl

/-- C6: an async preparation call (with `--nohup` unset) short-circuits
after the record is resolved or created.  Whether a `Running` record is
reused (first conjunct, with no conflicting port) or a fresh record is
inserted (second conjunct, on the caller's port or an allocated one), the
run spawns the re-invocation, sleeps the one-second grace interval,
prints the success acknowledgment carrying only the record's uid, and
returns nil: the trace is exactly the insert (when created), the spawn,
the sleep and the print — in particular no attach attempt happens in the
parent. -/
theorem C6_async_short_circuit :
    (∀ (env : Env) (pc : PrepareJvmCommand) (r : PreparationRecord) (pid : String)
      (resp : Response),
      (pc.processName == "" && pc.processId == "") = false →
      env.checkFlagValues pc.processName pc.processId = (pid, resp) →
      resp.success = true →
      env.queryRunning PrepareJvmType pc.processName pid = .ok (some r) →
      r.status = "Running" →
      (pc.port = 0 ∨ goItoa pc.port = r.port) →
      pc.nohup = false →
      pc.async = true →
      prepareJvm env pc =
        { ret := none, finalCmd := { pc with processId := pid },
          events := [.spawn (invokeAttachingArgs { pc with processId := pid } r.port r.uid),
            .sleepSecond, .println (ReturnSuccess r.uid).print] }) ∧
    (∀ (env : Env) (pc : PrepareJvmCommand) (record0 : Option PreparationRecord)
      (rec : PreparationRecord) (pid port : String) (resp : Response),
      (pc.processName == "" && pc.processId == "") = false →
      env.checkFlagValues pc.processName pc.processId = (pid, resp) →
      resp.success = true →
      env.queryRunning PrepareJvmType pc.processName pid = .ok record0 →
      (∀ r, record0 = some r → r.status ≠ "Running") →
      ((pc.port ≠ 0 ∧ port = goItoa pc.port) ∨
        (pc.port = 0 ∧ env.getAndCacheSandboxPort = .ok port)) →
      env.insertPrepareRecord PrepareJvmType pc.processName port pid = .ok rec →
      pc.nohup = false →
      pc.async = true →
      prepareJvm env pc =
        { ret := none, finalCmd := { pc with processId := pid },
          events := [.insert PrepareJvmType pc.processName port pid,
            .spawn (invokeAttachingArgs { pc with processId := pid } rec.port rec.uid),
            .sleepSecond, .println (ReturnSuccess rec.uid).print] }) := by
  constructor
  · intro env pc r pid resp hflags hcf hok hq hst hpr hnohup hasync
    unfold prepareJvm
    dsimp only
    rcases hpr with hp0 | hpeq
    · simp [hflags, hcf, hok, hq, hnohup, ManualPreparation, hst, hp0, hasync, mpFinish]
    · simp [hflags, hcf, hok, hq, hnohup, ManualPreparation, hst, hpeq, hasync, mpFinish]
  · intro env pc record0 rec pid port resp hflags hcf hok hq hnew hp hins hnohup hasync
    unfold prepareJvm
    dsimp only
    cases record0 with
    | none =>
      rcases hp with ⟨hne, hpe⟩ | ⟨h0, hget⟩
      · subst hpe
        simp [hflags, hcf, hok, hq, hnohup, hasync, ManualPreparation, mpCreate, mpFinish,
          hne, hins]
      · simp [hflags, hcf, hok, hq, hnohup, hasync, ManualPreparation, mpCreate, mpFinish,
          h0, hget, hins]
    | some r =>
      have hr : r.status ≠ "Running" := hnew r rfl
      rcases hp with ⟨hne, hpe⟩ | ⟨h0, hget⟩
      · subst hpe
        simp [hflags, hcf, hok, hq, hnohup, hasync, ManualPreparation, mpCreate, mpFinish,
          hr, hne, hins]
      · simp [hflags, hcf, hok, hq, hnohup, hasync, ManualPreparation, mpCreate, mpFinish,
          hr, h0, hget, hins]

/-- Witness for C6 exercising both branches: an async call reusing the
`Running` record `recR`, and an async call against `freshEnv` (no record
yet) that inserts a record on the allocated port `9000` with the fresh
uid `uid2` before spawning, sleeping and printing. -/
theorem C6_async_short_circuit_witness :
    (prepareJvm baseEnv { basePc with async := true } =
      { ret := none, finalCmd := { { basePc with async := true } with processId := "100" },
        events := [.spawn (invokeAttachingArgs { { basePc with async := true } with
            processId := "100" } recR.port recR.uid),
          .sleepSecond, .println (ReturnSuccess recR.uid).print] }) ∧
    (prepareJvm freshEnv { basePc with async := true } =
      { ret := none, finalCmd := { { basePc with async := true } with processId := "100" },
        events := [.insert PrepareJvmType "tomcat" "9000" "100",
          .spawn (invokeAttachingArgs { { basePc with async := true } with processId := "100" }
            "9000" "uid2"),
          .sleepSecond, .println (ReturnSuccess "uid2").print] }) :=
  ⟨C6_async_short_circuit.1 baseEnv { basePc with async := true } recR "100"
      (ReturnSuccess "100") rfl rfl rfl rfl rfl (Or.inl rfl) rfl rfl,
    C6_async_short_circuit.2 freshEnv { basePc with async := true } none
      { uid := "uid2", programType := PrepareJvmType, process := "tomcat", port := "9000",
        pid := "100", status := "Running" }
      "100" "9000" (ReturnSuccess "100") rfl rfl rfl rfl
      (fun r h => Option.noConfusion h) (Or.inr ⟨rfl, rfl⟩) rfl rfl rfl⟩

/-- Appending a conditional suffix preserves having `x` as a prefix. -/
theorem exists_suffix_ite (s x t : String) (c : Bool) (h : ∃ r, s = x ++ r) :
    ∃ r, (if c then s ++ t else s) = x ++ r := by
  obtain ⟨r, hr⟩ := h
  cases c
  · exact ⟨r, hr⟩
  · exact ⟨r ++ t, by simp [hr, String.append_assoc]⟩

/-- Appending a conditional pair of suffixes (a flag literal and its
value) preserves having `x` as a prefix. -/
theorem exists_suffix_ite2 (s x t u : String) (c : Bool) (h : ∃ r, s = x ++ r) :
    ∃ r, (if c then s ++ t ++ u else s) = x ++ r := by
  obtain ⟨r, hr⟩ := h
  cases c
  · exact ⟨r, hr⟩
  · exact ⟨r ++ t ++ u, by simp [hr, String.append_assoc]⟩

/-- The `attachAgent` never spawns a process. -/
theorem attachAgent_no_spawn (env : Env) (pc : PrepareJvmCommand) :
    (attachAgent env pc).2.filter Event.isSpawn = [] := by
  unfold attachAgent
  dsimp only
  repeat' split
  all_goals rfl

/-- The `reportAttachedResult` never spawns a process. -/
theorem reportAttachedResult_no_spawn (env : Env) (pc : PrepareJvmCommand) :
    (reportAttachedResult env pc).filter Event.isSpawn = [] := by
  unfold reportAttachedResult
  split
  · rfl
  · rfl

/-- The attach phase starting from a trace `ev` adds no spawn. -/
theorem attachPhase_filter_spawn (env : Env) (pc : PrepareJvmCommand)
    (record : Option PreparationRecord) (ev : List Event) :
    (attachPhase env pc record ev).events.filter Event.isSpawn =
      ev.filter Event.isSpawn := by
  unfold attachPhase
  dsimp only
  repeat' split
  all_goals
    simp [List.filter_append, attachAgent_no_spawn, reportAttachedResult_no_spawn,
      Event.isSpawn]

/-- C7: every re-invocation command line built by `invokeAttaching`
begins with the record's uid and the `--nohup` marker, and every run of
`prepareJvm` with the `--nohup` flag set spawns no child process, so a
re-invocation never forks again. -/
theorem C7_no_infinite_fork (pcA : PrepareJvmCommand) (port uid : String)
    (env : Env) (pcB : PrepareJvmCommand) (hnohup : pcB.nohup = true) :
    (∃ rest, invokeAttachingArgs pcA port uid =
      ("prepare jvm --uid " ++ uid ++ " --nohup") ++ rest) ∧
    (prepareJvm env pcB).events.filter Event.isSpawn = [] := by
  constructor
  · unfold invokeAttachingArgs
    dsimp only
    apply exists_suffix_ite2
    apply exists_suffix_ite
    apply exists_suffix_ite2
    apply exists_suffix_ite2
    apply exists_suffix_ite2
    apply exists_suffix_ite2
    exact ⟨"", (String.append_empty _).symm⟩
  · unfold prepareJvm
    dsimp only
    repeat' split
    all_goals simp_all [attachPhase_filter_spawn]

/-- Witness for C7 at a concrete re-invocation: the child command line of
an async run for `tomcat` carries `uid1` and `--nohup`, and running the
child flags (`--uid uid1 --nohup --port 8703 -p tomcat --async`) spawns
nothing. -/
theorem C7_no_infinite_fork_witness :
    (∃ rest, invokeAttachingArgs { basePc with async := true } "8703" "uid1" =
      ("prepare jvm --uid " ++ "uid1" ++ " --nohup") ++ rest) ∧
    (prepareJvm baseEnv
      { basePc with async := true, nohup := true, uid := "uid1", port := 8703 }).events.filter
        Event.isSpawn = [] :=
  C7_no_infinite_fork { basePc with async := true } "8703" "uid1" baseEnv
    { basePc with async := true, nohup := true, uid := "uid1", port := 8703 } rfl

/-- C8: on a synchronous reuse-path call whose resolved live pid differs
from the record's stored pid, the trace is the attach events followed by
the pid update to the resolved value (and the final print when the
response handler returns nil) — the update happens after the attach
attempt and for either attach outcome. -/
theorem C8_pid_correction (env : Env) (pc : PrepareJvmCommand) (r : PreparationRecord)
    (pid : String) (resp : Response)
    (hflags : (pc.processName == "" && pc.processId == "") = false)
    (hcf : env.checkFlagValues pc.processName pc.processId = (pid, resp))
    (hok : resp.success = true)
    (hq : env.queryRunning PrepareJvmType pc.processName pid = .ok (some r))
    (hst : r.status = "Running")
    (hport : pc.port = 0)
    (huid : pc.uid = "")
    (hnohup : pc.nohup = false)
    (hasync : pc.async = false)
    (hne : r.pid ≠ pid) :
    (prepareJvm env pc).events =
      (attachAgent env (resolvedCmd pc pid r)).2 ++ [.updatePid r.uid pid] ++
        (match env.handlePrepareResponse r.uid (attachAgent env (resolvedCmd pc pid r)).1 with
          | none => [.println (attachAgent env (resolvedCmd pc pid r)).1.print]
          | some _ => []) := by
  rw [prepareJvm_reuse_eq env pc r pid resp hflags hcf hok hq hst hport hnohup hasync]
  unfold attachPhase adoptRecord resolvedCmd
  dsimp only
  simp only [huid, hport, hasync]
  simp [hne, bne_iff_ne]
  split <;> simp_all

/-- Witness for C8: the record stores pid `100` but the live pid resolves
to `200`; the trace is the attach call, the pid update to `200` and the
print. -/
theorem C8_pid_correction_witness :
    (prepareJvm pidDriftEnv basePc).events =
      (attachAgent pidDriftEnv (resolvedCmd basePc "200" recR)).2 ++ [.updatePid recR.uid "200"] ++
        (match pidDriftEnv.handlePrepareResponse recR.uid
            (attachAgent pidDriftEnv (resolvedCmd basePc "200" recR)).1 with
          | none => [.println (attachAgent pidDriftEnv (resolvedCmd basePc "200" recR)).1.print]
          | some _ => []) :=
  C8_pid_correction pidDriftEnv basePc recR "200" (ReturnSuccess "200")
    rfl rfl rfl rfl rfl rfl rfl rfl rfl (by decide)

/-- The `printlnsOf` distributes over trace concatenation. -/
theorem printlnsOf_append (a b : List Event) :
    printlnsOf (a ++ b) = printlnsOf a ++ printlnsOf b := by
  simp [printlnsOf]

/-- The `printlnsOf` on the empty trace. -/
theorem printlnsOf_nil : printlnsOf [] = [] := rfl

/-- A store insert prints nothing. -/
theorem printlnsOf_insert (t p po pi : String) (l : List Event) :
    printlnsOf (Event.insert t p po pi :: l) = printlnsOf l := rfl

/-- A port update prints nothing. -/
theorem printlnsOf_updatePort (u p : String) (l : List Event) :
    printlnsOf (Event.updatePort u p :: l) = printlnsOf l := rfl

/-- A pid update prints nothing. -/
theorem printlnsOf_updatePid (u p : String) (l : List Event) :
    printlnsOf (Event.updatePid u p :: l) = printlnsOf l := rfl

/-- An attach call prints nothing. -/
theorem printlnsOf_attachCall (p j i : String) (l : List Event) :
    printlnsOf (Event.attachCall p j i :: l) = printlnsOf l := rfl

/-- A spawn prints nothing. -/
theorem printlnsOf_spawn (a : String) (l : List Event) :
    printlnsOf (Event.spawn a :: l) = printlnsOf l := rfl

/-- The grace sleep prints nothing. -/
theorem printlnsOf_sleep (l : List Event) :
    printlnsOf (Event.sleepSecond :: l) = printlnsOf l := rfl

/-- A println event contributes its string. -/
theorem printlnsOf_println (s : String) (l : List Event) :
    printlnsOf (Event.println s :: l) = s :: printlnsOf l := rfl

/-- An HTTP post prints nothing. -/
theorem printlnsOf_postReport (e b : String) (l : List Event) :
    printlnsOf (Event.postReport e b :: l) = printlnsOf l := rfl

/-- The `reportAttachedResult` prints nothing (it only logs and posts). -/
theorem reportAttachedResult_printlns (env : Env) (pc : PrepareJvmCommand) :
    printlnsOf (reportAttachedResult env pc) = [] := by
  unfold reportAttachedResult
  split
  · rfl
  · rfl

/-- The `attachAgent` depends only on the attach and token oracles and on the
port, java-home, pid and uid flags. -/
theorem attachAgent_congr (env env' : Env) (pc pc' : PrepareJvmCommand)
    (hat : env'.attach = env.attach)
    (htok : env'.checkPortFromSandboxToken = env.checkPortFromSandboxToken)
    (hp : pc'.port = pc.port) (hj : pc'.javaHome = pc.javaHome)
    (hpid : pc'.processId = pc.processId) (huid : pc'.uid = pc.uid) :
    attachAgent env' pc' = attachAgent env pc := by
  unfold attachAgent
  dsimp only
  rw [hat, htok, hp, hj, hpid, huid]

/-- The `adoptRecord` preserves agreement on every flag but the endpoint. -/
theorem adoptRecord_agree (pc pc' : PrepareJvmCommand) (record : Option PreparationRecord)
    (h1 : pc'.javaHome = pc.javaHome) (h2 : pc'.processName = pc.processName)
    (h3 : pc'.port = pc.port) (h4 : pc'.processId = pc.processId)
    (h5 : pc'.async = pc.async) (h6 : pc'.uid = pc.uid) (h7 : pc'.nohup = pc.nohup) :
    (adoptRecord pc' record).javaHome = (adoptRecord pc record).javaHome ∧
    (adoptRecord pc' record).processName = (adoptRecord pc record).processName ∧
    (adoptRecord pc' record).port = (adoptRecord pc record).port ∧
    (adoptRecord pc' record).processId = (adoptRecord pc record).processId ∧
    (adoptRecord pc' record).async = (adoptRecord pc record).async ∧
    (adoptRecord pc' record).uid = (adoptRecord pc record).uid ∧
    (adoptRecord pc' record).nohup = (adoptRecord pc record).nohup := by
  cases record with
  | none => exact ⟨h1, h2, h3, h4, h5, h6, h7⟩
  | some r =>
    unfold adoptRecord
    dsimp only
    rw [h6, h3]
    repeat' split
    all_goals simp_all

/-- The `ManualPreparation`'s result and printed output depend only on the
allocator and insert oracles and on the process/port/async flags — not on
the endpoint or the reporting oracles (the endpoint reaches only the
spawned child's argument string). -/
theorem ManualPreparation_congr (env env' : Env) (pc pc' : PrepareJvmCommand)
    (record : Option PreparationRecord)
    (hgp : env'.getAndCacheSandboxPort = env.getAndCacheSandboxPort)
    (hins : env'.insertPrepareRecord = env.insertPrepareRecord)
    (h2 : pc'.processName = pc.processName) (h3 : pc'.port = pc.port)
    (h4 : pc'.processId = pc.processId) (h5 : pc'.async = pc.async) :
    (ManualPreparation env' pc' record).1 = (ManualPreparation env pc record).1 ∧
    printlnsOf (ManualPreparation env' pc' record).2 =
      printlnsOf (ManualPreparation env pc record).2 := by
  unfold ManualPreparation mpCreate mpFinish
  dsimp only
  rw [hgp, hins, h2, h3, h4, h5]
  repeat' split
  all_goals
    simp_all [printlnsOf_append, printlnsOf_nil, printlnsOf_insert, printlnsOf_spawn,
      printlnsOf_sleep, printlnsOf_println]

/-- The attach phase's returned error and printed output are unchanged by
the endpoint flag, the reporting oracles, and the starting trace (kept to
equal printed output). -/
theorem attachPhase_congr (env env' : Env) (pc pc' : PrepareJvmCommand)
    (record : Option PreparationRecord) (ev ev' : List Event)
    (hat : env'.attach = env.attach)
    (htok : env'.checkPortFromSandboxToken = env.checkPortFromSandboxToken)
    (hh : env'.handlePrepareResponse = env.handlePrepareResponse)
    (h1 : pc'.javaHome = pc.javaHome) (h2 : pc'.processName = pc.processName)
    (h3 : pc'.port = pc.port) (h4 : pc'.processId = pc.processId)
    (h5 : pc'.async = pc.async) (h6 : pc'.uid = pc.uid) (h7 : pc'.nohup = pc.nohup)
    (hev : printlnsOf ev' = printlnsOf ev) :
    (attachPhase env' pc' record ev').ret = (attachPhase env pc record ev).ret ∧
    printlnsOf (attachPhase env' pc' record ev').events =
      printlnsOf (attachPhase env pc record ev).events := by
  obtain ⟨g1, g2, g3, g4, g5, g6, g7⟩ := adoptRecord_agree pc pc' record h1 h2 h3 h4 h5 h6 h7
  have hAA : attachAgent env' (adoptRecord pc' record) = attachAgent env (adoptRecord pc record) :=
    attachAgent_congr env env' (adoptRecord pc record) (adoptRecord pc' record) hat htok g3 g1 g4 g6
  unfold attachPhase
  dsimp only
  rw [hAA, hh, g6, g4, g5]
  repeat' split
  all_goals
    simp_all [printlnsOf_append, printlnsOf_nil, printlnsOf_updatePid, printlnsOf_println,
      reportAttachedResult_printlns]

/-- Two environments agreeing on every oracle are equal. -/
theorem Env.extOracles (a b : Env)
    (hc : a.checkFlagValues = b.checkFlagValues)
    (hq : a.queryRunning = b.queryRunning)
    (hi : a.insertPrepareRecord = b.insertPrepareRecord)
    (hg : a.getAndCacheSandboxPort = b.getAndCacheSandboxPort)
    (ha : a.attach = b.attach)
    (ht : a.checkPortFromSandboxToken = b.checkPortFromSandboxToken)
    (hu : a.updatePreparationPort = b.updatePreparationPort)
    (hh : a.handlePrepareResponse = b.handlePrepareResponse)
    (hqp : a.queryPreparationByUid = b.queryPreparationByUid)
    (hm : a.jsonMarshal = b.jsonMarshal)
    (hpo : a.postCurl = b.postCurl) : a = b := by
  cases a
  cases b
  dsimp only at hc hq hi hg ha ht hu hh hqp hm hpo
  subst hc hq hi hg ha ht hu hh hqp hm hpo
  rfl

/-- Two command states agreeing on every flag are equal. -/
theorem PrepareJvmCommand.extFlags (a b : PrepareJvmCommand)
    (h1 : a.javaHome = b.javaHome) (h2 : a.processName = b.processName)
    (h3 : a.port = b.port) (h4 : a.processId = b.processId)
    (h5 : a.async = b.async) (h6 : a.uid = b.uid)
    (h7 : a.nohup = b.nohup) (h8 : a.endpoint = b.endpoint) : a = b := by
  cases a
  cases b
  dsimp only at h1 h2 h3 h4 h5 h6 h7 h8
  subst h1 h2 h3 h4 h5 h6 h7 h8
  rfl

/-- Replacing the reporting oracles keeps the flag-check oracle. -/
theorem withReportOracles_checkFlagValues (env : Env) (q m post) :
    (withReportOracles env q m post).checkFlagValues = env.checkFlagValues := rfl

/-- Replacing the reporting oracles keeps the running-record query. -/
theorem withReportOracles_queryRunning (env : Env) (q m post) :
    (withReportOracles env q m post).queryRunning = env.queryRunning := rfl

/-- C9: result reporting is best-effort.  A run whose environment differs
only in the reporting oracles (record-by-uid query, body marshalling,
HTTP post — covering serialization failures, transport errors and
non-200 responses) and whose flags differ only in the endpoint returns
the same error value and prints the same responses as the run without an
endpoint. -/
theorem C9_report_best_effort (env env' : Env) (pc pc' : PrepareJvmCommand)
    (hcf : env'.checkFlagValues = env.checkFlagValues)
    (hqr : env'.queryRunning = env.queryRunning)
    (hgp : env'.getAndCacheSandboxPort = env.getAndCacheSandboxPort)
    (hins : env'.insertPrepareRecord = env.insertPrepareRecord)
    (hat : env'.attach = env.attach)
    (htok : env'.checkPortFromSandboxToken = env.checkPortFromSandboxToken)
    (hupd : env'.updatePreparationPort = env.updatePreparationPort)
    (hh : env'.handlePrepareResponse = env.handlePrepareResponse)
    (h1 : pc'.javaHome = pc.javaHome) (h2 : pc'.processName = pc.processName)
    (h3 : pc'.port = pc.port) (h4 : pc'.processId = pc.processId)
    (h5 : pc'.async = pc.async) (h6 : pc'.uid = pc.uid) (h7 : pc'.nohup = pc.nohup) :
    (prepareJvm env' pc').ret = (prepareJvm env pc).ret ∧
    printlnsOf (prepareJvm env' pc').events = printlnsOf (prepareJvm env pc).events := by
  have henv : env' = withReportOracles env env'.queryPreparationByUid env'.jsonMarshal
      env'.postCurl :=
    Env.extOracles env' (withReportOracles env env'.queryPreparationByUid env'.jsonMarshal env'.postCurl)
      hcf hqr hins hgp hat htok hupd hh rfl rfl rfl
  have hpc : pc' = { pc with endpoint := pc'.endpoint } :=
    PrepareJvmCommand.extFlags pc' { pc with endpoint := pc'.endpoint }
      h1 h2 h3 h4 h5 h6 h7 rfl
  rw [hpc, henv]
  unfold prepareJvm
  dsimp only [withReportOracles_checkFlagValues, withReportOracles_queryRunning]
  split
  · exact ⟨rfl, rfl⟩
  · split
    · exact ⟨rfl, rfl⟩
    · split
      · exact ⟨rfl, rfl⟩
      · rename_i record0 hquery
        split
        · obtain ⟨e1, e2⟩ := ManualPreparation_congr env
            (withReportOracles env env'.queryPreparationByUid env'.jsonMarshal env'.postCurl)
            { pc with processId := (env.checkFlagValues pc.processName pc.processId).1 }
            { pc with processId := (env.checkFlagValues pc.processName pc.processId).1, endpoint := pc'.endpoint }
            record0 rfl rfl rfl rfl rfl rfl
          rw [e1]
          split
          · exact ⟨rfl, e2⟩
          · exact ⟨rfl, e2⟩
          · exact attachPhase_congr env
              (withReportOracles env env'.queryPreparationByUid env'.jsonMarshal env'.postCurl)
              { pc with processId := (env.checkFlagValues pc.processName pc.processId).1 }
              { pc with processId := (env.checkFlagValues pc.processName pc.processId).1, endpoint := pc'.endpoint }
              _ _ _ rfl rfl rfl rfl rfl rfl rfl rfl rfl rfl e2
        · exact attachPhase_congr env
            (withReportOracles env env'.queryPreparationByUid env'.jsonMarshal env'.postCurl)
            { pc with processId := (env.checkFlagValues pc.processName pc.processId).1 }
            { pc with processId := (env.checkFlagValues pc.processName pc.processId).1, endpoint := pc'.endpoint }
            record0 [] [] rfl rfl rfl rfl rfl rfl rfl rfl rfl rfl rfl

/-- Witness for C9: the async child run with the endpoint configured and
a collector answering HTTP 500 returns the same value and prints the same
responses as the identical run without an endpoint. -/
theorem C9_report_best_effort_witness :
    (prepareJvm reportFailEnv { asyncChildPc with endpoint := "collector:7070" }).ret =
      (prepareJvm baseEnv asyncChildPc).ret ∧
    printlnsOf (prepareJvm reportFailEnv
        { asyncChildPc with endpoint := "collector:7070" }).events =
      printlnsOf (prepareJvm baseEnv asyncChildPc).events :=
  C9_report_best_effort baseEnv reportFailEnv asyncChildPc
    { asyncChildPc with endpoint := "collector:7070" }
    rfl rfl rfl rfl rfl rfl rfl rfl rfl rfl rfl rfl rfl rfl rfl

/-- The `goItoa` of the zero port. -/
theorem goItoa_zero : goItoa 0 = "0" := rfl

/-- The `goAtoi` of the literal string `0`. -/
theorem goAtoi_zero : goAtoi "0" = (0, true) := rfl

/-- The trace of `attachAgent` always begins with the first attach call. -/
theorem attachAgent_events_cons (env : Env) (pc : PrepareJvmCommand) :
    ∃ rest, (attachAgent env pc).2 =
      .attachCall (goItoa pc.port) pc.javaHome pc.processId :: rest := by
  unfold attachAgent
  dsimp only
  repeat' split
  all_goals exact ⟨_, rfl⟩

/-- The first event of an attach phase started on an empty trace is the
attach call on the adopted state. -/
theorem attachPhase_events_head (env : Env) (pc : PrepareJvmCommand)
    (record : Option PreparationRecord) :
    (attachPhase env pc record []).events.head? =
      some (.attachCall (goItoa (adoptRecord pc record).port)
        (adoptRecord pc record).javaHome (adoptRecord pc record).processId) := by
  obtain ⟨rest, hrest⟩ := attachAgent_events_cons env (adoptRecord pc record)
  unfold attachPhase
  dsimp only
  rw [hrest]
  repeat' split
  all_goals rfl

/-- The attach phase ignores the running-record query oracle. -/
theorem attachPhase_queryRunning_irrel (env : Env)
    (f : String → String → String → Except String (Option PreparationRecord))
    (pc : PrepareJvmCommand) (record : Option PreparationRecord) (ev : List Event) :
    attachPhase { env with queryRunning := f } pc record ev =
      attachPhase env pc record ev := rfl

/-- On the reuse path with no caller port, a record whose port string
fails to parse behaves exactly like one storing the literal `0`. -/
theorem attachPhase_record_port_eq (env : Env) (pc1 : PrepareJvmCommand)
    (r : PreparationRecord) (ev : List Event)
    (huid : pc1.uid = "") (hport : pc1.port = 0)
    (hbad : goAtoi r.port = (0, false)) :
    attachPhase env pc1 (some { r with port := "0" }) ev =
      attachPhase env pc1 (some r) ev := by
  have h12 : adoptRecord pc1 (some { r with port := "0" }) = adoptRecord pc1 (some r) := by
    unfold adoptRecord
    dsimp only
    simp [huid, hport, hbad, goAtoi_zero]
  unfold attachPhase
  dsimp only
  rw [h12]

/-- C10: when the caller supplies port `0` and the reused `Running`
record's stored port string is not a valid decimal integer, the
`strconv.Atoi` failure is silently discarded: the adopted port is `0`,
the attach attempt proceeds with port string `0`, and the whole run is
identical to one whose record stored the literal `0` — no error is
raised anywhere. -/
theorem C10_parse_error_silently_zero (env : Env) (pc : PrepareJvmCommand)
    (r : PreparationRecord) (pid : String) (resp : Response)
    (hflags : (pc.processName == "" && pc.processId == "") = false)
    (hcf : env.checkFlagValues pc.processName pc.processId = (pid, resp))
    (hok : resp.success = true)
    (hq : env.queryRunning PrepareJvmType pc.processName pid = .ok (some r))
    (hst : r.status = "Running")
    (hport : pc.port = 0)
    (huid : pc.uid = "")
    (hnohup : pc.nohup = false)
    (hasync : pc.async = false)
    (hbad : goAtoi r.port = (0, false)) :
    (prepareJvm env pc).finalCmd.port = 0 ∧
    (prepareJvm env pc).events.head? = some (.attachCall "0" pc.javaHome pid) ∧
    prepareJvm env pc =
      prepareJvm { env with queryRunning := fun _ _ _ => .ok (some { r with port := "0" }) }
        pc := by
  have hrw := prepareJvm_reuse_eq env pc r pid resp hflags hcf hok hq hst hport hnohup hasync
  have hadopt : adoptRecord { pc with processId := pid } (some r) =
      { pc with processId := pid, uid := r.uid, port := 0 } := by
    unfold adoptRecord
    dsimp only
    simp [huid, hport, hbad]
  refine ⟨?_, ?_, ?_⟩
  · rw [hrw, attachPhase_finalCmd env _ r [] (by simpa using huid) (by simpa using hport)]
    simp [hbad]
  · rw [hrw, attachPhase_events_head, hadopt]
    rfl
  · have hrw2 := prepareJvm_reuse_eq
      { env with queryRunning := fun _ _ _ => .ok (some { r with port := "0" }) }
      pc { r with port := "0" } pid resp hflags hcf hok rfl hst hport hnohup hasync
    rw [hrw, hrw2, attachPhase_queryRunning_irrel]
    exact (attachPhase_record_port_eq env { pc with processId := pid } r [] huid hport hbad).symm

/-- Witness for C10: the record stores port string `not-a-number`; the
run adopts port `0`, attaches on `0`, and coincides with the run whose
record stores `0`. -/
theorem C10_parse_error_silently_zero_witness :
    (prepareJvm badPortEnv basePc).finalCmd.port = 0 ∧
    (prepareJvm badPortEnv basePc).events.head? =
      some (.attachCall "0" basePc.javaHome "100") ∧
    prepareJvm badPortEnv basePc =
      prepareJvm { badPortEnv with
        queryRunning := fun _ _ _ => .ok (some { badPortRec with port := "0" }) } basePc :=
  C10_parse_error_silently_zero badPortEnv basePc badPortRec "100" (ReturnSuccess "100")
    rfl rfl rfl rfl rfl rfl rfl rfl rfl rfl

end PrepareJvm
